import Mathlib

/-!
Shallow embedding of `src/logger.cpp` (mpc-qt's asynchronous logging facility).

The logger runs on a single owning execution context: the static `Logger::log`
entry points post queued invocations (`Qt::QueuedConnection`) that are later
processed, in posting order, by the `makeLog*` slots on that context.  We model
the logger's observable state (`LoggerState`), the queued delivery channel
(`SysState` with a request queue), and each member function as a pure state
transformer.  Outputs (subscriber signals, file writes, stderr) are modelled as
accumulating fields of the state.
-/

set_option autoImplicit false

namespace MpcQt

/-- Whitespace test used by trimming, modelling `QChar::isSpace` for the
characters that occur in log lines. -/
def isSpaceChar (c : Char) : Bool :=
  c = ' ' || c = '\t' || c = '\n' || c = '\r'

/-- Model of `QString::trimmed()`: remove leading and trailing whitespace. -/
def trimmed (s : String) : String :=
  ⟨((s.data.dropWhile isSpaceChar).reverse.dropWhile isSpaceChar).reverse⟩

/-- Model of `QStringList::join(sep)`: concatenate with a separator between
consecutive elements. -/
def joinWith (sep : String) : List String → String
  | [] => ""
  | [s] => s
  | s :: rest => s ++ sep ++ joinWith sep rest

/-- One request posted through the queued delivery channel.  The three shapes
correspond to the three `Logger::log` overloads, which remotely invoke
`makeLog`, `makeLogPrefixed` and `makeLogDescriptively` respectively. -/
inductive LogRequest where
  | plain (line : String)
  | prefixed (pfx message : String)
  | descriptive (pfx level message : String)
deriving DecidableEq, Repr

/-- Observable state of the `Logger` instance.

Fields `loggingEnabled`, `immediateMode`, `pendingMessages`, `logFileName`
mirror the members of the C++ class; `hasLogFileStream` models whether
`logFileStream` is non-null; `timerRunning`/`timerInterval` model the
`flushTimer`'s state; `fileContent` accumulates the bytes written through the
text stream (excluding the byte-order marker emitted at stream start);
`emittedSingles` and `emittedBatches` record the `logMessage` and
`logMessageBuffer` signal emissions, in order. -/
structure LoggerState where
  loggingEnabled : Bool
  immediateMode : Bool
  pendingMessages : List String
  logFileName : String
  hasLogFileStream : Bool
  timerRunning : Bool
  timerInterval : Int
  fileContent : String
  emittedSingles : List String
  emittedBatches : List (List String)
deriving DecidableEq, Repr

/-- Initial state after `Logger::Logger`.  The constructor sets
`immediateMode = false` and creates the (stopped) flush timer; the pending
buffer starts empty and no file sink is configured.  The initial value of
`loggingEnabled` is an in-class initializer in `logger.h`, which is not part of
the provided sources; following the spec's state machine the logger starts in
the `Disabled` state, i.e. `loggingEnabled = false`. -/
def initState : LoggerState where
  loggingEnabled := false
  immediateMode := false
  pendingMessages := []
  logFileName := ""
  hasLogFileStream := false
  timerRunning := false
  timerInterval := 0
  fileContent := ""
  emittedSingles := []
  emittedBatches := []

/-- `Logger::flushMessages`: no-op on an empty buffer; otherwise write the
newline-joined buffer plus a trailing newline to the file stream (when
configured), emit the whole batch via `logMessageBuffer`, and clear the
buffer. -/
def flushMessages (lg : LoggerState) : LoggerState :=
  if lg.pendingMessages.isEmpty then lg
  else
    { lg with
      fileContent :=
        if lg.hasLogFileStream
        then lg.fileContent ++ joinWith "\n" lg.pendingMessages ++ "\n"
        else lg.fileContent
      emittedBatches := lg.emittedBatches ++ [lg.pendingMessages]
      pendingMessages := [] }

/-- `Logger::makeLog`: drop the line when logging is disabled; otherwise trim
it and either (immediate mode) emit it via `logMessage` and write it to the
file stream when configured, or (buffered mode) append it to the pending
buffer. -/
def makeLog (lg : LoggerState) (line : String) : LoggerState :=
  if !lg.loggingEnabled then lg
  else if lg.immediateMode then
    { lg with
      emittedSingles := lg.emittedSingles ++ [trimmed line]
      fileContent :=
        if lg.hasLogFileStream
        then lg.fileContent ++ trimmed line ++ "\n"
        else lg.fileContent }
  else
    { lg with pendingMessages := lg.pendingMessages ++ [trimmed line] }

/-- `Logger::makeLogPrefixed`: formats `"[%1] %2"` and delegates to
`makeLog`. -/
def makeLogPrefixed (lg : LoggerState) (pfx message : String) : LoggerState :=
  makeLog lg ("[" ++ pfx ++ "] " ++ message)

/-- `Logger::makeLogDescriptively`: formats `"[%1] %2: %3"` and delegates to
`makeLog`. -/
def makeLogDescriptively (lg : LoggerState) (pfx level message : String) : LoggerState :=
  makeLog lg ("[" ++ pfx ++ "] " ++ level ++ ": " ++ message)

/-- The line `makeLog` would append for a given request (after formatting and
trimming): what the spec calls the accepted line. -/
def renderRequest : LogRequest → String
  | .plain line => trimmed line
  | .prefixed pfx message => trimmed ("[" ++ pfx ++ "] " ++ message)
  | .descriptive pfx level message => trimmed ("[" ++ pfx ++ "] " ++ level ++ ": " ++ message)

/-- Dispatch of one delivered request to the matching `makeLog*` handler on the
owning context. -/
def processRequest (lg : LoggerState) : LogRequest → LoggerState
  | .plain line => makeLog lg line
  | .prefixed pfx message => makeLogPrefixed lg pfx message
  | .descriptive pfx level message => makeLogDescriptively lg pfx level message

/-- Processing of a sequence of delivered requests, in order, on the owning
context. -/
def processAll (lg : LoggerState) (q : List LogRequest) : LoggerState :=
  q.foldl processRequest lg

/-- The guarded `flushTimer->start()` of `setLoggingEnabled` (lines 163-164):
start the timer unless in immediate mode. -/
def startTimerUnlessImmediate (lg : LoggerState) : LoggerState :=
  if !lg.immediateMode then { lg with timerRunning := true } else lg

/-- The guarded `flushMessages()` of `setFlushTime` (lines 177-178): flush
unless already in immediate mode. -/
def flushUnlessImmediate (lg : LoggerState) : LoggerState :=
  if !lg.immediateMode then flushMessages lg else lg

/-- `Logger::setLoggingEnabled`: enabling from the disabled state sets the
flag, logs the "enabling logging" lifecycle line directly (the call runs on
the owning context), and starts the flush timer unless in immediate mode;
disabling from the enabled state logs "disabling logging", flushes, stops the
timer and clears the flag.  Anything else is a no-op. -/
def setLoggingEnabled (lg : LoggerState) (enabled : Bool) : LoggerState :=
  if enabled && !lg.loggingEnabled then
    startTimerUnlessImmediate
      (makeLogPrefixed { lg with loggingEnabled := true } "logger" "enabling logging")
  else if !enabled && lg.loggingEnabled then
    { flushMessages (makeLogPrefixed lg "logger" "disabling logging") with
        timerRunning := false, loggingEnabled := false }
  else lg

/-- `Logger::setFlushTime`: `msec <= 0` stops the timer, flushes when leaving
buffered mode, and enters immediate mode; `msec > 0` leaves immediate mode,
sets the timer interval to `max 100 msec` and starts the timer. -/
def setFlushTime (lg : LoggerState) (msec : Int) : LoggerState :=
  if msec ≤ 0 then
    { flushUnlessImmediate { lg with timerRunning := false } with immediateMode := true }
  else
    { lg with immediateMode := false, timerInterval := max 100 msec, timerRunning := true }

/-- System state: the logger instance together with the queue of posted but not
yet processed remote invocations (the `Qt::QueuedConnection` event queue). -/
structure SysState where
  logger : LoggerState
  queue : List LogRequest
deriving DecidableEq, Repr

/-- Static `Logger::log(line)`: posts a queued `makeLog` invocation. -/
def postLog (st : SysState) (line : String) : SysState :=
  { st with queue := st.queue ++ [.plain line] }

/-- Static `Logger::log(prefix, message)`: posts a queued `makeLogPrefixed`
invocation. -/
def postLogPrefixed (st : SysState) (pfx message : String) : SysState :=
  { st with queue := st.queue ++ [.prefixed pfx message] }

/-- Static `Logger::logs(prefix, strings)`: joins the tokens with single
spaces and delegates to the two-argument `log`. -/
def postLogs (st : SysState) (pfx : String) (strings : List String) : SysState :=
  postLogPrefixed st pfx (joinWith " " strings)

/-- The owning context's event loop processing every queued request, in
order. -/
def drain (st : SysState) : SysState :=
  { logger := processAll st.logger st.queue, queue := [] }

/-- The assignment `logFileName = fileName` of `setLogFile` (line 135). -/
def assignLogFileName (st : SysState) (fileName : String) : SysState :=
  { st with logger := { st.logger with logFileName := fileName } }

/-- The stream/file teardown of `setLogFile`'s empty-name branch
(lines 138-145). -/
def releaseSink (st : SysState) : SysState :=
  { st with logger := { st.logger with hasLogFileStream := false } }

/-- The stream creation of `setLogFile`'s success path (lines 153-155):
install a UTF-8 stream generating a byte-order marker. -/
def installSink (st : SysState) : SysState :=
  { st with logger := { st.logger with hasLogFileStream := true } }

/-- `Logger::setLogFile`: no-op when the name is unchanged.  An empty name
queues the "log file closed" line through the normal (queued) pipeline and
then releases the stream and file.  A non-empty name opens a write-truncate
file; `openOk` models whether `QFile::open` succeeds.  On failure the function
returns with the previous stream untouched; on success it queues the
"opened for writing" line and installs a UTF-8 stream with a byte-order
marker. -/
def setLogFile (st : SysState) (fileName : String) (openOk : Bool) : SysState :=
  if st.logger.logFileName == fileName then st
  else if fileName.isEmpty then
    releaseSink
      (postLogPrefixed (assignLogFileName st fileName) "logger" "log file closed")
  else if !openOk then assignLogFileName st fileName
  else
    installSink
      (postLogs (assignLogFileName st fileName) "logger"
        ["log file", fileName, "opened for writing"])

/-- Result of the fatal path: what was written to the process's standard error
stream, and whether the process was terminated (`std::abort`). -/
structure FatalResult where
  stderrOut : String
  terminated : Bool
deriving DecidableEq, Repr

/-- `Logger::fatalMessage`: when an instance exists, write each pending
message followed by a newline directly to stderr, in buffer order; then
unconditionally abort.  The instance itself is only read, never mutated: no
file write, no signal emission.  The second component returns the (unchanged)
instance to make that explicit. -/
def fatalMessage (inst : Option LoggerState) : FatalResult × Option LoggerState :=
  match inst with
  | none => ({ stderrOut := "", terminated := true }, none)
  | some lg =>
      ({ stderrOut := String.join (lg.pendingMessages.map fun m => m ++ "\n")
         terminated := true }, some lg)

/-- One operation executed on the owning context, used to describe reachable
logger states. -/
inductive Op where
  | doLog (r : LogRequest)
  | doSetFlushTime (msec : Int)
  | doSetLoggingEnabled (b : Bool)
  | doFlush
deriving DecidableEq, Repr

/-- Effect of one operation on the logger state.  `doFlush` stands for a
periodic-timer fire or any other direct `flushMessages` call. -/
def applyOp (lg : LoggerState) : Op → LoggerState
  | .doLog r => processRequest lg r
  | .doSetFlushTime msec => setFlushTime lg msec
  | .doSetLoggingEnabled b => setLoggingEnabled lg b
  | .doFlush => flushMessages lg

/-- The logger state reached from the initial state by a sequence of
operations. -/
def run (ops : List Op) : LoggerState :=
  ops.foldl applyOp initState

/-- State-machine invariant of the logger, established for every reachable
state: in immediate mode the pending buffer is empty; the flush timer only
runs outside immediate mode; and while logging is disabled the pending buffer
is empty (so a timer fire while disabled delivers nothing). -/
def GoodState (lg : LoggerState) : Prop :=
  (lg.immediateMode = true → lg.pendingMessages = [])
  ∧ (lg.timerRunning = true → lg.immediateMode = false)
  ∧ (lg.loggingEnabled = false → lg.pendingMessages = [])

/-- Scenario of spec §8 for the file-sink close test: logging enabled, in
immediate mode, no sink yet, event queue empty. -/
def closeScenarioStart : SysState :=
  { logger := { initState with loggingEnabled := true, immediateMode := true }
    queue := [] }

/-- The close scenario after `setLogFile("out.log")` (open succeeds) and the
event loop processing the queued confirmation line. -/
def closeScenarioOpened : SysState := drain (setLogFile closeScenarioStart "out.log" true)

/-- The close scenario after additionally logging "hello" and letting the
event loop deliver it. -/
def closeScenarioHello : SysState := drain (postLog closeScenarioOpened "hello")

/-- The close scenario after finally calling `setLogFile("")` and letting the
event loop process the queued "log file closed" line. -/
def closeScenarioFinal : SysState := drain (setLogFile closeScenarioHello "" true)

/-- Scenario for the sink-open-failure test: a sink is already open on
"a.log", logging is enabled in buffered mode, "hello" is pending. -/
def openFailScenario : SysState :=
  { logger := { initState with
                  loggingEnabled := true
                  hasLogFileStream := true
                  logFileName := "a.log"
                  pendingMessages := ["hello"] }
    queue := [] }

/-- Concrete instance used to witness the amended close-sink theorem: a sink
open on "x.log", logging enabled in buffered mode, queue empty. -/
def closeWitnessStart : SysState :=
  { logger := { initState with
                  loggingEnabled := true
                  logFileName := "x.log"
                  hasLogFileStream := true }
    queue := [] }

/-- Concrete instance used to witness the amended open-failure theorem: no
sink configured, "p" pending, queue empty. -/
def openFailNoSinkStart : SysState :=
  { logger := { initState with pendingMessages := ["p"] }
    queue := [] }

end MpcQt

namespace MpcQt

/-! Basic lemmas about the embedded operations. -/

theorem flushMessages_pending (lg : LoggerState) : (flushMessages lg).pendingMessages = [] := by
  unfold flushMessages
  split
  · next h => simpa [List.isEmpty_iff] using h
  · rfl

theorem flushMessages_flags (lg : LoggerState) :
    (flushMessages lg).loggingEnabled = lg.loggingEnabled
    ∧ (flushMessages lg).immediateMode = lg.immediateMode
    ∧ (flushMessages lg).timerRunning = lg.timerRunning
    ∧ (flushMessages lg).hasLogFileStream = lg.hasLogFileStream
    ∧ (flushMessages lg).emittedSingles = lg.emittedSingles := by
  unfold flushMessages
  split <;> simp

theorem flushMessages_batches (lg : LoggerState) :
    (flushMessages lg).emittedBatches
      = lg.emittedBatches ++ (if lg.pendingMessages.isEmpty then [] else [lg.pendingMessages]) := by
  unfold flushMessages
  split <;> simp_all

theorem makeLog_flags (lg : LoggerState) (line : String) :
    (makeLog lg line).loggingEnabled = lg.loggingEnabled
    ∧ (makeLog lg line).immediateMode = lg.immediateMode
    ∧ (makeLog lg line).timerRunning = lg.timerRunning
    ∧ (makeLog lg line).hasLogFileStream = lg.hasLogFileStream
    ∧ (makeLog lg line).emittedBatches = lg.emittedBatches := by
  unfold makeLog
  split
  · simp
  · split <;> simp

theorem makeLog_pending_immediate (lg : LoggerState) (line : String)
    (h : lg.immediateMode = true) :
    (makeLog lg line).pendingMessages = lg.pendingMessages := by
  unfold makeLog
  split
  · rfl
  · simp [h]

theorem flushUnlessImmediate_flags (lg : LoggerState) :
    (flushUnlessImmediate lg).loggingEnabled = lg.loggingEnabled
    ∧ (flushUnlessImmediate lg).immediateMode = lg.immediateMode
    ∧ (flushUnlessImmediate lg).timerRunning = lg.timerRunning
    ∧ (flushUnlessImmediate lg).hasLogFileStream = lg.hasLogFileStream
    ∧ (flushUnlessImmediate lg).emittedSingles = lg.emittedSingles := by
  unfold flushUnlessImmediate
  split
  · exact flushMessages_flags lg
  · exact ⟨rfl, rfl, rfl, rfl, rfl⟩

theorem flushUnlessImmediate_pending (lg : LoggerState)
    (h : lg.immediateMode = true → lg.pendingMessages = []) :
    (flushUnlessImmediate lg).pendingMessages = [] := by
  unfold flushUnlessImmediate
  split
  · exact flushMessages_pending lg
  · next him => exact h (by simpa using him)

/-- Processing delivered requests while enabled in buffered mode only appends
the rendered lines to the pending buffer, leaving every other field alone. -/
theorem processAll_buffered (q : List LogRequest) (lg : LoggerState)
    (hEn : lg.loggingEnabled = true) (hBuf : lg.immediateMode = false) :
    processAll lg q = { lg with pendingMessages := lg.pendingMessages ++ q.map renderRequest } := by
  induction q generalizing lg with
  | nil => simp [processAll]
  | cons r rest ih =>
      have hstep : processRequest lg r
          = { lg with pendingMessages := lg.pendingMessages ++ [renderRequest r] } := by
        cases r <;> simp [processRequest, makeLog, makeLogPrefixed, makeLogDescriptively,
          renderRequest, hEn, hBuf]
      have hfold : processAll lg (r :: rest) = processAll (processRequest lg r) rest := by
        simp [processAll, List.foldl]
      rw [hfold, hstep, ih _ (by simp [hEn]) (by simp [hBuf])]
      simp

/-! Preservation of the reachable-state invariant by every operation. -/

theorem goodState_init : GoodState initState := by
  refine ⟨?_, ?_, ?_⟩ <;> intro h <;> rfl

theorem goodState_makeLog (lg : LoggerState) (line : String) (h : GoodState lg) :
    GoodState (makeLog lg line) := by
  obtain ⟨h1, h2, h3⟩ := h
  unfold GoodState makeLog
  split
  · next hd => exact ⟨h1, h2, h3⟩
  · next hd =>
    simp only [Bool.not_eq_true'] at hd
    split
    · next him => exact ⟨fun _ => h1 him, fun ht => him ▸ (h2 ht), fun hf => by simp [hd] at hf⟩
    · next him =>
      refine ⟨fun hc => ?_, fun ht => ?_, fun hf => ?_⟩
      · simp at hc; simp [hc] at him
      · simpa using (by simpa using him : ¬ lg.immediateMode = true)
      · simp [hd] at hf

theorem goodState_processRequest (lg : LoggerState) (r : LogRequest) (h : GoodState lg) :
    GoodState (processRequest lg r) := by
  cases r <;>
    simp only [processRequest, makeLogPrefixed, makeLogDescriptively] <;>
    exact goodState_makeLog _ _ h

theorem goodState_flush (lg : LoggerState) (h : GoodState lg) :
    GoodState (flushMessages lg) := by
  obtain ⟨-, h2, -⟩ := h
  obtain ⟨he, hi, ht, -, -⟩ := flushMessages_flags lg
  exact ⟨fun _ => flushMessages_pending lg,
         fun hr => by rw [hi]; exact h2 (ht ▸ hr),
         fun _ => flushMessages_pending lg⟩

theorem goodState_setFlushTime (lg : LoggerState) (msec : Int) (h : GoodState lg) :
    GoodState (setFlushTime lg msec) := by
  obtain ⟨h1, h2, h3⟩ := h
  unfold setFlushTime
  split
  · refine ⟨fun _ => ?_, fun ht => ?_, fun _ => ?_⟩
    · exact flushUnlessImmediate_pending _ h1
    · exfalso
      have htt := (flushUnlessImmediate_flags { lg with timerRunning := false }).2.2.1
      simp only [htt] at ht
      exact absurd ht (by simp)
    · exact flushUnlessImmediate_pending _ h1
  · exact ⟨fun hc => by simp at hc, fun _ => rfl, fun hf => h3 hf⟩

theorem goodState_startTimer (lg : LoggerState) (h : GoodState lg) :
    GoodState (startTimerUnlessImmediate lg) := by
  obtain ⟨h1, h2, h3⟩ := h
  unfold startTimerUnlessImmediate
  split
  · next him =>
    simp only [Bool.not_eq_true'] at him
    exact ⟨fun hc => by simp [him] at hc, fun _ => him, h3⟩
  · exact ⟨h1, h2, h3⟩

theorem goodState_setLoggingEnabled (lg : LoggerState) (b : Bool) (h : GoodState lg) :
    GoodState (setLoggingEnabled lg b) := by
  obtain ⟨h1, h2, h3⟩ := h
  unfold setLoggingEnabled
  split
  · apply goodState_startTimer
    apply goodState_makeLog
    exact ⟨h1, h2, by intro hf; simp at hf⟩
  · split
    · refine ⟨fun _ => ?_, fun ht => by simp at ht, fun _ => ?_⟩ <;>
        exact flushMessages_pending _
    · exact ⟨h1, h2, h3⟩

theorem goodState_applyOp (lg : LoggerState) (op : Op) (h : GoodState lg) :
    GoodState (applyOp lg op) := by
  cases op with
  | doLog r => exact goodState_processRequest lg r h
  | doSetFlushTime msec => exact goodState_setFlushTime lg msec h
  | doSetLoggingEnabled b => exact goodState_setLoggingEnabled lg b h
  | doFlush => exact goodState_flush lg h

theorem goodState_foldl (ops : List Op) (lg : LoggerState) (h : GoodState lg) :
    GoodState (ops.foldl applyOp lg) := by
  induction ops generalizing lg with
  | nil => exact h
  | cons op rest ih => exact ih _ (goodState_applyOp lg op h)

theorem goodState_run (ops : List Op) : GoodState (run ops) :=
  goodState_foldl ops initState goodState_init

end MpcQt

namespace MpcQt

/-! Further helper lemmas shared by the claim proofs. -/

theorem flushUnlessImmediate_batches (lg : LoggerState)
    (h : lg.immediateMode = true → lg.pendingMessages = []) :
    (flushUnlessImmediate lg).emittedBatches
      = lg.emittedBatches ++ (if lg.pendingMessages.isEmpty then [] else [lg.pendingMessages]) := by
  unfold flushUnlessImmediate
  split
  · exact flushMessages_batches lg
  · next him => simp [h (by simpa using him)]

theorem makeLog_fileContent_noStream (lg : LoggerState) (line : String)
    (h : lg.hasLogFileStream = false) :
    (makeLog lg line).fileContent = lg.fileContent := by
  unfold makeLog
  split
  · rfl
  · split <;> simp [h]

theorem flushMessages_fileContent_noStream (lg : LoggerState)
    (h : lg.hasLogFileStream = false) :
    (flushMessages lg).fileContent = lg.fileContent := by
  unfold flushMessages
  split
  · rfl
  · simp [h]

theorem startTimer_other_fields (lg : LoggerState) :
    (startTimerUnlessImmediate lg).loggingEnabled = lg.loggingEnabled
    ∧ (startTimerUnlessImmediate lg).immediateMode = lg.immediateMode
    ∧ (startTimerUnlessImmediate lg).pendingMessages = lg.pendingMessages
    ∧ (startTimerUnlessImmediate lg).emittedSingles = lg.emittedSingles
    ∧ (startTimerUnlessImmediate lg).emittedBatches = lg.emittedBatches := by
  unfold startTimerUnlessImmediate
  split <;> simp

theorem setLoggingEnabled_flag (lg : LoggerState) (b : Bool) :
    (setLoggingEnabled lg b).loggingEnabled = b := by
  unfold setLoggingEnabled
  split
  · next hb =>
    rw [(startTimer_other_fields _).1]
    have hpres := (makeLog_flags { lg with loggingEnabled := true }
      ("[" ++ "logger" ++ "] " ++ "enabling logging")).1
    rw [makeLogPrefixed, hpres]
    cases b
    · simp at hb
    · rfl
  · split
    · next hb =>
      cases b
      · rfl
      · simp at hb
    · next hb1 hb2 =>
      cases b <;> simp_all

/-! Claim theorems. -/

/-- Claim C1: starting from an enabled, buffered-mode state with an empty
pending buffer, processing any nonempty sequence of log calls in order on the
owning context and then calling `flushMessages` delivers exactly the accepted
(formatted and trimmed) lines, in call order, as one `logMessageBuffer`
batch, and leaves `pendingMessages` cleared. -/
theorem buffered_flush_delivers_in_order (lg : LoggerState) (q : List LogRequest)
    (hEn : lg.loggingEnabled = true) (hBuf : lg.immediateMode = false)
    (hEmpty : lg.pendingMessages = []) (hNe : q ≠ []) :
    (flushMessages (processAll lg q)).emittedBatches
      = lg.emittedBatches ++ [q.map renderRequest]
    ∧ (flushMessages (processAll lg q)).pendingMessages = [] := by
  have hkey := processAll_buffered q lg hEn hBuf
  rw [hkey]
  refine ⟨?_, flushMessages_pending _⟩
  rw [flushMessages_batches]
  simp [hEmpty, hNe]

/-- Claim C1 witness: two concrete accepted calls are delivered as one batch
in call order and the buffer is cleared. -/
theorem buffered_flush_delivers_in_order_witness :
    (flushMessages (processAll { initState with loggingEnabled := true }
        [LogRequest.plain "hello", LogRequest.prefixed "mpv" "file loaded"])).emittedBatches
      = [["hello", "[mpv] file loaded"]]
    ∧ (flushMessages (processAll { initState with loggingEnabled := true }
        [LogRequest.plain "hello", LogRequest.prefixed "mpv" "file loaded"])).pendingMessages
      = [] := by
  have h := buffered_flush_delivers_in_order { initState with loggingEnabled := true }
    [LogRequest.plain "hello", LogRequest.prefixed "mpv" "file loaded"] rfl rfl rfl (by decide)
  exact ⟨h.1.trans (by decide), h.2⟩

/-- Claim C2 counterexample: in the spec §8 scenario (open "out.log", log
"hello" in immediate mode, then `setLogFile("")`), the "log file closed" line
never appears in the file content, because the closure line travels through
the queued pipeline and is processed only after the stream has been released.
It reaches subscribers via `logMessage` instead. -/
theorem closure_line_absent_from_file :
    closeScenarioFinal.logger.fileContent
      = "[logger] log file out.log opened for writing\nhello\n"
    ∧ ¬ ("[logger] log file closed").data <:+: closeScenarioFinal.logger.fileContent.data
    ∧ closeScenarioFinal.logger.emittedSingles
      = ["[logger] log file out.log opened for writing", "hello", "[logger] log file closed"]
    ∧ closeScenarioFinal.logger.hasLogFileStream = false := by
  refine ⟨by decide, by decide, by decide, by decide⟩

/-- Claim C2 amended: `setLogFile("")` queues the closure line before the
stream is released, but because the delivery is a queued invocation the line
is processed only after the stream is gone: the file content never changes
(the closure line is not written to the file), and the line instead reaches
the pending buffer (enabled, buffered mode) or the `logMessage` subscribers
(enabled, immediate mode). -/
theorem closure_line_deferred_behind_released_sink (st : SysState)
    (hQ : st.queue = []) (hName : st.logger.logFileName ≠ "") :
    (drain (setLogFile st "" true)).logger.fileContent = st.logger.fileContent
    ∧ (drain (setLogFile st "" true)).logger.hasLogFileStream = false
    ∧ (st.logger.loggingEnabled = true → st.logger.immediateMode = false →
        (drain (setLogFile st "" true)).logger.pendingMessages
          = st.logger.pendingMessages ++ ["[logger] log file closed"])
    ∧ (st.logger.loggingEnabled = true → st.logger.immediateMode = true →
        (drain (setLogFile st "" true)).logger.emittedSingles
          = st.logger.emittedSingles ++ ["[logger] log file closed"]) := by
  have hline : trimmed "[logger] log file closed" = "[logger] log file closed" := by decide
  have hbeq : (st.logger.logFileName == "") = false := by
    simpa using hName
  have hdrain : drain (setLogFile st "" true)
      = { logger := makeLogPrefixed
            { st.logger with logFileName := "", hasLogFileStream := false }
            "logger" "log file closed"
          queue := [] } := by
    unfold setLogFile
    simp only [hbeq, Bool.false_eq_true, if_false, String.isEmpty_iff, if_pos rfl]
    unfold releaseSink postLogPrefixed assignLogFileName drain processAll
    simp [hQ, processRequest]
  rw [hdrain]
  refine ⟨?_, ?_, fun hEn hBuf => ?_, fun hEn hIm => ?_⟩
  · exact makeLog_fileContent_noStream _ _ rfl
  · exact (makeLog_flags _ _).2.2.2.1
  · unfold makeLogPrefixed makeLog
    simp [hEn, hBuf, hline]
  · unfold makeLogPrefixed makeLog
    simp [hEn, hIm, hline]

/-- Claim C2 amended witness: closing the sink from a concrete buffered-mode
state leaves the file content untouched while the closure line lands in the
pending buffer. -/
theorem closure_line_deferred_behind_released_sink_witness :
    closeWitnessStart.queue = []
    ∧ (drain (setLogFile closeWitnessStart "" true)).logger.fileContent = ""
    ∧ (drain (setLogFile closeWitnessStart "" true)).logger.pendingMessages
      = ["[logger] log file closed"] := by
  have h := closure_line_deferred_behind_released_sink closeWitnessStart rfl (by decide)
  exact ⟨rfl, h.1.trans (by decide), (h.2.2.1 rfl rfl).trans (by decide)⟩

/-- Claim C3: disabling from an enabled state logs the "disabling logging"
line, flushes everything pending (in buffered mode the final batch is the old
buffer followed by the lifecycle line; in immediate mode the line is emitted
singly and any pending content is still flushed), stops the timer, disables
logging, and leaves `pendingMessages` empty — so nothing flushed by the
disable transition can be delivered again after re-enabling. -/
theorem disable_flushes_stops_and_clears (lg : LoggerState) (hEn : lg.loggingEnabled = true) :
    (setLoggingEnabled lg false).loggingEnabled = false
    ∧ (setLoggingEnabled lg false).timerRunning = false
    ∧ (setLoggingEnabled lg false).pendingMessages = []
    ∧ (lg.immediateMode = false →
        (setLoggingEnabled lg false).emittedBatches
          = lg.emittedBatches ++ [lg.pendingMessages ++ ["[logger] disabling logging"]])
    ∧ (lg.immediateMode = true →
        (setLoggingEnabled lg false).emittedSingles
          = lg.emittedSingles ++ ["[logger] disabling logging"]
        ∧ (setLoggingEnabled lg false).emittedBatches
          = lg.emittedBatches
            ++ (if lg.pendingMessages.isEmpty then [] else [lg.pendingMessages])) := by
  have hline : trimmed "[logger] disabling logging" = "[logger] disabling logging" := by decide
  have hcond : setLoggingEnabled lg false
      = { flushMessages (makeLogPrefixed lg "logger" "disabling logging") with
            timerRunning := false, loggingEnabled := false } := by
    unfold setLoggingEnabled
    simp [hEn]
  rw [hcond]
  refine ⟨rfl, rfl, flushMessages_pending _, fun hBuf => ?_, fun hIm => ?_⟩
  · have hmk : makeLogPrefixed lg "logger" "disabling logging"
        = { lg with pendingMessages := lg.pendingMessages ++ ["[logger] disabling logging"] } := by
      unfold makeLogPrefixed makeLog
      simp [hEn, hBuf, hline]
    show (flushMessages _).emittedBatches = _
    rw [hmk, flushMessages_batches]
    simp
  · have hsingles : (makeLogPrefixed lg "logger" "disabling logging").emittedSingles
        = lg.emittedSingles ++ ["[logger] disabling logging"] := by
      unfold makeLogPrefixed makeLog
      simp [hEn, hIm, hline]
    have hpend : (makeLogPrefixed lg "logger" "disabling logging").pendingMessages
        = lg.pendingMessages :=
      makeLog_pending_immediate _ _ hIm
    have hbat : (makeLogPrefixed lg "logger" "disabling logging").emittedBatches
        = lg.emittedBatches :=
      (makeLog_flags _ _).2.2.2.2
    constructor
    · show (flushMessages _).emittedSingles = _
      rw [(flushMessages_flags _).2.2.2.2, hsingles]
    · show (flushMessages _).emittedBatches = _
      rw [flushMessages_batches, hpend, hbat]

/-- Claim C3 witness: disabling from a concrete enabled state with "m1"
pending flushes the batch ["m1", "[logger] disabling logging"] and clears the
buffer. -/
theorem disable_flushes_stops_and_clears_witness :
    (setLoggingEnabled { initState with loggingEnabled := true, pendingMessages := ["m1"] }
        false).pendingMessages = []
    ∧ (setLoggingEnabled { initState with loggingEnabled := true, pendingMessages := ["m1"] }
        false).emittedBatches = [["m1", "[logger] disabling logging"]] := by
  have h := disable_flushes_stops_and_clears
    { initState with loggingEnabled := true, pendingMessages := ["m1"] } rfl
  exact ⟨h.2.2.1, (h.2.2.2.1 rfl).trans (by decide)⟩

/-- Claim C4: under the reachable-state invariant (immediate mode implying an
empty buffer), `setFlushTime msec` with `msec ≤ 0` stops the timer, flushes
everything pending (delivering it as a batch when there was any) and enters
immediate mode; with `msec > 0` it enters buffered mode, keeps the pending
buffer intact and (re)starts the timer at interval `max 100 msec`, so
`setFlushTime 50` produces the very same state as `setFlushTime 100`.  In
neither case is a pending message discarded. -/
theorem setFlushTime_mode_transitions (lg : LoggerState) (msec : Int)
    (hInv : lg.immediateMode = true → lg.pendingMessages = []) :
    (msec ≤ 0 →
      (setFlushTime lg msec).timerRunning = false
      ∧ (setFlushTime lg msec).immediateMode = true
      ∧ (setFlushTime lg msec).pendingMessages = []
      ∧ (setFlushTime lg msec).emittedBatches
          = lg.emittedBatches ++ (if lg.pendingMessages.isEmpty then [] else [lg.pendingMessages]))
    ∧ (0 < msec →
      (setFlushTime lg msec).immediateMode = false
      ∧ (setFlushTime lg msec).timerRunning = true
      ∧ (setFlushTime lg msec).timerInterval = max 100 msec
      ∧ (setFlushTime lg msec).pendingMessages = lg.pendingMessages)
    ∧ setFlushTime lg 50 = setFlushTime lg 100 := by
  refine ⟨fun hle => ?_, fun hpos => ?_, ?_⟩
  · have hres : setFlushTime lg msec
        = { flushUnlessImmediate { lg with timerRunning := false } with immediateMode := true } := by
      unfold setFlushTime
      simp [hle]
    rw [hres]
    refine ⟨?_, rfl, ?_, ?_⟩
    · show (flushUnlessImmediate _).timerRunning = false
      rw [(flushUnlessImmediate_flags _).2.2.1]
    · show (flushUnlessImmediate _).pendingMessages = []
      exact flushUnlessImmediate_pending _ hInv
    · show (flushUnlessImmediate _).emittedBatches = _
      exact flushUnlessImmediate_batches _ hInv
  · have hres : setFlushTime lg msec
        = { lg with
              immediateMode := false
              timerInterval := max 100 msec
              timerRunning := true } := by
      unfold setFlushTime
      simp [not_le.mpr hpos]
    rw [hres]
    exact ⟨rfl, rfl, rfl, rfl⟩
  · unfold setFlushTime
    norm_num

/-- Claim C4 witness: from a concrete buffered state with "a" pending,
`setFlushTime 0` flushes the batch ["a"] and empties the buffer, while
`setFlushTime 200` keeps interval 200 (and `setFlushTime 50` would clamp to
100 by the theorem's last conjunct). -/
theorem setFlushTime_mode_transitions_witness :
    ((0:Int) ≤ 0
      ∧ (setFlushTime { initState with loggingEnabled := true, pendingMessages := ["a"] }
          0).pendingMessages = []
      ∧ (setFlushTime { initState with loggingEnabled := true, pendingMessages := ["a"] }
          0).emittedBatches = [["a"]])
    ∧ ((0:Int) < 200
      ∧ (setFlushTime { initState with loggingEnabled := true, pendingMessages := ["a"] }
          200).timerInterval = 200) := by
  have h := setFlushTime_mode_transitions
    { initState with loggingEnabled := true, pendingMessages := ["a"] } 0 (by decide)
  have h2 := setFlushTime_mode_transitions
    { initState with loggingEnabled := true, pendingMessages := ["a"] } 200 (by decide)
  exact ⟨⟨by decide, (h.1 (by decide)).2.2.1, ((h.1 (by decide)).2.2.2).trans (by decide)⟩,
    ⟨by decide, ((h2.2.1 (by decide)).2.2.1).trans (by decide)⟩⟩

/-- Claim C5: the fatal path writes exactly each pending line followed by a
newline to standard error, in buffer order, terminates, and leaves the
instance untouched (no file write, no signal emission); with no instance it
writes nothing before terminating.  The concrete conjunct checks the spec §8
instance: pending ["m1", "m2"] produces stderr "m1\nm2\n". -/
theorem fatalMessage_drains_pending_to_stderr (lg : LoggerState) :
    (fatalMessage (some lg)).1.stderrOut
      = String.join (lg.pendingMessages.map fun m => m ++ "\n")
    ∧ (fatalMessage (some lg)).1.terminated = true
    ∧ (fatalMessage (some lg)).2 = some lg
    ∧ (fatalMessage (some { initState with pendingMessages := ["m1", "m2"] })).1.stderrOut
      = "m1\nm2\n"
    ∧ (fatalMessage none).1.stderrOut = ""
    ∧ (fatalMessage none).1.terminated = true :=
  ⟨rfl, rfl, rfl, by decide, rfl, rfl⟩

/-- Claim C6: while logging is disabled, every log request (plain, prefixed,
or prefix+level) leaves the logger state completely unchanged: nothing is
buffered, emitted, or written, and no error is surfaced. -/
theorem disabled_log_calls_are_noops (lg : LoggerState) (hDis : lg.loggingEnabled = false) :
    (∀ line, makeLog lg line = lg)
    ∧ (∀ pfx message, makeLogPrefixed lg pfx message = lg)
    ∧ (∀ pfx level message, makeLogDescriptively lg pfx level message = lg)
    ∧ (∀ r, processRequest lg r = lg) := by
  have hm : ∀ line, makeLog lg line = lg := fun line => by simp [makeLog, hDis]
  refine ⟨hm, fun p m => hm _, fun p l m => hm _, fun r => ?_⟩
  cases r <;> simp [processRequest, makeLogPrefixed, makeLogDescriptively, hm]

/-- Claim C6 witness: requests against the disabled initial state are
identity operations. -/
theorem disabled_log_calls_are_noops_witness :
    initState.loggingEnabled = false
    ∧ makeLog initState "hello" = initState
    ∧ processRequest initState (LogRequest.prefixed "mpv" "x") = initState :=
  ⟨rfl, (disabled_log_calls_are_noops initState rfl).1 "hello",
   (disabled_log_calls_are_noops initState rfl).2.2.2 (LogRequest.prefixed "mpv" "x")⟩

/-- Claim C7 counterexample: when a sink is already open and `setLogFile` is
called with a fresh name whose open fails, the old stream stays configured
(`hasLogFileStream` remains true) and the next flush still writes the
pending "hello" to it, contradicting "no file sink is left configured" and
"subsequent flushes write nothing to any file". -/
theorem failed_open_keeps_previous_sink :
    (setLogFile openFailScenario "b.log" false).logger.hasLogFileStream = true
    ∧ (flushMessages (setLogFile openFailScenario "b.log" false).logger).fileContent
      = "hello\n" := by
  constructor <;> decide

/-- Claim C7 amended: a failed open leaves the sink configuration exactly as
it was — only `logFileName` is updated and nothing is posted.  In particular,
when no sink was configured beforehand none is afterwards: subsequent flushes
write nothing to any file and still broadcast the pending batch to
subscribers.  (A previously-open sink, by contrast, remains active, as the
counterexample shows.) -/
theorem failed_open_without_prior_sink_leaves_none (st : SysState) (fileName : String)
    (hDiff : st.logger.logFileName ≠ fileName) (hNe : fileName ≠ "")
    (hNoSink : st.logger.hasLogFileStream = false) :
    (setLogFile st fileName false).logger = { st.logger with logFileName := fileName }
    ∧ (setLogFile st fileName false).queue = st.queue
    ∧ (setLogFile st fileName false).logger.hasLogFileStream = false
    ∧ (flushMessages (setLogFile st fileName false).logger).fileContent
      = st.logger.fileContent
    ∧ (st.logger.pendingMessages ≠ [] →
        (flushMessages (setLogFile st fileName false).logger).emittedBatches
          = st.logger.emittedBatches ++ [st.logger.pendingMessages]) := by
  have hbeq : (st.logger.logFileName == fileName) = false := by simpa using hDiff
  have hemp : fileName.isEmpty = false :=
    Bool.eq_false_iff.mpr fun hcontra => hNe ((String.isEmpty_iff fileName).mp hcontra)
  have hset : setLogFile st fileName false = assignLogFileName st fileName := by
    unfold setLogFile
    simp [hbeq, hemp]
  rw [hset]
  unfold assignLogFileName
  refine ⟨rfl, rfl, hNoSink, ?_, fun hp => ?_⟩
  · exact flushMessages_fileContent_noStream _ hNoSink
  · rw [flushMessages_batches]
    simp [hp]

/-- Claim C7 amended witness: a failed open from a concrete sink-less state
updates only the file name, and the next flush broadcasts ["p"] while
writing nothing. -/
theorem failed_open_without_prior_sink_leaves_none_witness :
    (setLogFile openFailNoSinkStart "b.log" false).logger
      = { openFailNoSinkStart.logger with logFileName := "b.log" }
    ∧ (flushMessages (setLogFile openFailNoSinkStart "b.log" false).logger).emittedBatches
      = [["p"]] := by
  have h := failed_open_without_prior_sink_leaves_none openFailNoSinkStart "b.log"
    (by decide) (by decide) rfl
  exact ⟨h.1, (h.2.2.2.2 (by decide)).trans (by decide)⟩

/-- Claim C8 counterexample: `setFlushTime` never consults `loggingEnabled`,
so calling it with a positive interval while disabled is a reachable
operation sequence that leaves the periodic timer running in the `Disabled`
state, contradicting "the timer is running only in `BufferedActive`". -/
theorem timer_runs_while_disabled :
    (run [Op.doSetFlushTime 200]).timerRunning = true
    ∧ (run [Op.doSetFlushTime 200]).loggingEnabled = false := by
  constructor <;> decide

/-- Claim C8 amended: in every reachable state the timer runs only outside
immediate mode; the timer can run while logging is disabled (after
`setFlushTime msec` with positive `msec` while disabled), but in every
reachable disabled state the pending buffer is empty, so a timer-driven
flush while disabled delivers nothing. -/
theorem timer_only_outside_immediate_mode (ops : List Op) :
    ((run ops).timerRunning = true → (run ops).immediateMode = false)
    ∧ ((run ops).loggingEnabled = false → (run ops).pendingMessages = []) :=
  ⟨(goodState_run ops).2.1, (goodState_run ops).2.2⟩

/-- Claim C8 amended witness: the counterexample state itself satisfies the
amended invariant — the timer runs, the mode is buffered, logging is
disabled and the buffer is empty. -/
theorem timer_only_outside_immediate_mode_witness :
    ((run [Op.doSetFlushTime 200]).timerRunning = true
      ∧ (run [Op.doSetFlushTime 200]).immediateMode = false)
    ∧ ((run [Op.doSetFlushTime 200]).loggingEnabled = false
      ∧ (run [Op.doSetFlushTime 200]).pendingMessages = []) :=
  ⟨⟨by decide, (timer_only_outside_immediate_mode [Op.doSetFlushTime 200]).1 (by decide)⟩,
   ⟨by decide, (timer_only_outside_immediate_mode [Op.doSetFlushTime 200]).2 (by decide)⟩⟩

/-- Claim C9: `setLoggingEnabled` is idempotent at both values — enabling
while enabled or disabling while disabled is the identity (no lifecycle line,
no state change), and performing the same transition twice equals performing
it once. -/
theorem setLoggingEnabled_idempotent (lg : LoggerState) (b : Bool) :
    (lg.loggingEnabled = true → setLoggingEnabled lg true = lg)
    ∧ (lg.loggingEnabled = false → setLoggingEnabled lg false = lg)
    ∧ setLoggingEnabled (setLoggingEnabled lg b) b = setLoggingEnabled lg b := by
  have hOn : ∀ st : LoggerState, st.loggingEnabled = true → setLoggingEnabled st true = st := by
    intro st h
    simp [setLoggingEnabled, h]
  have hOff : ∀ st : LoggerState, st.loggingEnabled = false → setLoggingEnabled st false = st := by
    intro st h
    simp [setLoggingEnabled, h]
  refine ⟨hOn lg, hOff lg, ?_⟩
  cases b
  · exact hOff _ (setLoggingEnabled_flag lg false)
  · exact hOn _ (setLoggingEnabled_flag lg true)

/-- Claim C9 witness: concrete idempotence instances at both values. -/
theorem setLoggingEnabled_idempotent_witness :
    setLoggingEnabled { initState with loggingEnabled := true } true
      = { initState with loggingEnabled := true }
    ∧ setLoggingEnabled initState false = initState
    ∧ setLoggingEnabled (setLoggingEnabled initState true) true
      = setLoggingEnabled initState true :=
  ⟨(setLoggingEnabled_idempotent { initState with loggingEnabled := true } true).1 rfl,
   (setLoggingEnabled_idempotent initState false).2.1 rfl,
   (setLoggingEnabled_idempotent initState true).2.2⟩

/-- Claim C10: in every state reachable from the initial state by any
sequence of log deliveries, `setFlushTime`, `setLoggingEnabled` and flushes,
immediate mode implies an empty pending buffer: an accepted immediate-mode
line is never retained and the switch into immediate mode always drains the
buffer first. -/
theorem immediate_mode_has_empty_buffer (ops : List Op)
    (h : (run ops).immediateMode = true) : (run ops).pendingMessages = [] :=
  (goodState_run ops).1 h

/-- Claim C10 witness: enable, accept a line, then switch to immediate mode —
the resulting state is in immediate mode with an empty buffer. -/
theorem immediate_mode_has_empty_buffer_witness :
    (run [Op.doSetLoggingEnabled true, Op.doLog (.plain "x"), Op.doSetFlushTime 0]).immediateMode
      = true
    ∧ (run [Op.doSetLoggingEnabled true, Op.doLog (.plain "x"),
        Op.doSetFlushTime 0]).pendingMessages = [] :=
  ⟨by decide, immediate_mode_has_empty_buffer
    [Op.doSetLoggingEnabled true, Op.doLog (.plain "x"), Op.doSetFlushTime 0] (by decide)⟩

end MpcQt
